import Mathlib

/-!
Shallow embedding of the prescription-orchestration pipeline of
`Backend/main.py` and `Backend/maps_service_osm.py`.

Conventions of the embedding:
* Python float data is carried as `ℚ` (every Python float is a rational);
  the idealised numeric value of the haversine computation lives in `ℝ`.
* IEEE NaN is tracked structurally: `PyVal.nan` on inputs, `FloatR.nan` on
  results; every math-library call of the source propagates NaN.
* A Python exception is an `Except Unit` error; `try/except` blocks of the
  source become `match` on that value.
* External collaborators (OCR, the AI model, the IP locator, the OSM fetch,
  the calendar service, the purchasing agent) are inputs of the pipeline,
  one field of `Env` each, mirroring the narrow contracts of the source.
-/

/-- Value a Python expression can feed to `float(...)` in
`calculate_distance` (`maps_service_osm.py`, line 7): a numeric value (or a
numeric string, as Nominatim returns for `lat`/`lon`), the float NaN, the
value `None` (as `place.get` yields for a missing key; `float(None)` raises
`TypeError`), or a non-numeric string (`float` raises `ValueError`). -/
inductive PyVal where
  | num (x : ℚ)
  | nan
  | noneV
  | badstr
deriving DecidableEq

/-- Result of a successful `float(...)` conversion: a value or NaN. -/
inductive PyFloat where
  | val (x : ℚ)
  | nan
deriving DecidableEq

/-- Python `float(v)`: numbers and numeric strings convert, NaN converts to
NaN, `None` and non-numeric strings raise. -/
def pyFloat : PyVal → Except Unit PyFloat
  | PyVal.num x => Except.ok (PyFloat.val x)
  | PyVal.nan => Except.ok PyFloat.nan
  | PyVal.noneV => Except.error ()
  | PyVal.badstr => Except.error ()

/-- Idealised float result of `calculate_distance`: a real value or NaN. -/
inductive FloatR where
  | val (x : ℝ)
  | nan

/-- Python `math.radians`. -/
noncomputable def radiansR (x : ℝ) : ℝ := x * (Real.pi / 180)

/-- Python `round(x, 2)` (the deviation of banker's rounding at exact
half-cent ties is immaterial to every property proved below). -/
noncomputable def round2 (x : ℝ) : ℝ := ((round (x * 100) : ℤ) : ℝ) / 100

/-- Numeric core of `calculate_distance` (`maps_service_osm.py`, lines 7-13)
on already-converted inputs: the haversine formula with Earth radius 6371 km,
rounded to 2 decimals.  The guard mirrors the `except` path of the source:
`math.sqrt` raises on a negative argument and `math.asin` on an argument
above 1, and either exception is caught and turned into `0.0`. -/
noncomputable def calculate_distanceR (lat1 lon1 lat2 lon2 : ℝ) : ℝ :=
  let rlon1 := radiansR lon1
  let rlat1 := radiansR lat1
  let rlon2 := radiansR lon2
  let rlat2 := radiansR lat2
  let dlon := rlon2 - rlon1
  let dlat := rlat2 - rlat1
  let a := Real.sin (dlat / 2) ^ 2 + Real.cos rlat1 * Real.cos rlat2 * Real.sin (dlon / 2) ^ 2
  if a < 0 ∨ 1 < a then 0
  else round2 (2 * Real.arcsin (Real.sqrt a) * 6371)

/-- Embedding of `calculate_distance` (`maps_service_osm.py`, lines 4-15).
The source converts `lon1, lat1, lon2, lat2` with `float` inside the `try`;
a conversion exception is caught and yields `0.0`; NaN inputs propagate
through `radians`/`sin`/`cos`/`sqrt`/`asin`/`round` to a NaN result. -/
noncomputable def calculate_distance (lat1 lon1 lat2 lon2 : PyVal) : FloatR :=
  match pyFloat lon1, pyFloat lat1, pyFloat lon2, pyFloat lat2 with
  | Except.ok a, Except.ok b, Except.ok c, Except.ok d =>
    match a, b, c, d with
    | PyFloat.val lo1, PyFloat.val la1, PyFloat.val lo2, PyFloat.val la2 =>
      FloatR.val (calculate_distanceR ((la1 : ℝ)) ((lo1 : ℝ)) ((la2 : ℝ)) ((lo2 : ℝ)))
    | _, _, _, _ => FloatR.nan
  | _, _, _, _ => FloatR.val 0

/-- Medicine entry as the AI prompt of `parse_with_ai` requires it
(`main.py`, line 66): objects with "name", "dosage", "frequency". -/
structure Medicine where
  name : String
  dosage : String
  frequency : String
deriving DecidableEq

/-- Structured prescription record: the JSON object `parse_with_ai` returns
(`main.py`, lines 65-68): medicines, tests, optional next visit date. -/
structure Prescription where
  medicines : List Medicine
  tests : List String
  next_visit : Option String
deriving DecidableEq

/-- Fallback record of `parse_with_ai` (`main.py`, line 76):
`{"medicines": [], "tests": [], "next_visit": None}`. -/
def fallbackPrescription : Prescription := Prescription.mk [] [] Option.none

/-- Leftmost, non-overlapping removal of every occurrence of the nonempty
pattern `p :: ps`: Python `s.replace(pat, "")` for nonempty `pat`. -/
def stripOcc (p : Char) (ps : List Char) (s : List Char) : List Char :=
  match s with
  | [] => []
  | c :: rest =>
    if (p :: ps).isPrefixOf (c :: rest) then
      stripOcc p ps (rest.drop ps.length)
    else
      c :: stripOcc p ps rest
termination_by s.length
decreasing_by
  · simp only [List.length_cons, List.length_drop]
    omega
  · simp only [List.length_cons]
    omega

/-- Python `s.replace(pat, "")` (both patterns of the source are nonempty,
so the empty-pattern branch is never exercised). -/
def replaceRemove (pat : List Char) (s : List Char) : List Char :=
  match pat with
  | [] => s
  | p :: ps => stripOcc p ps s

/-- Whitespace characters Python `str.strip()` removes. -/
def isPySpace (c : Char) : Bool :=
  c = ' ' || c = '\t' || c = '\n' || c = '\r' || c = '\x0b' || c = '\x0c'

/-- Python `str.strip()`. -/
def pytrim (s : List Char) : List Char :=
  ((s.dropWhile isPySpace).reverse.dropWhile isPySpace).reverse

/-- Fence stripping of `parse_with_ai` (`main.py`, line 72):
`response.text.replace("```json", "").replace("```", "").strip()`. -/
def cleanResponse (s : List Char) : List Char :=
  pytrim (replaceRemove ("```".toList) (replaceRemove ("```json".toList) s))

/-- An AI response wrapped in markdown code fences: "```json\n" ++ s ++ "\n```". -/
def wrapFence (s : List Char) : List Char :=
  ("```json\n".toList) ++ s ++ ("\n```".toList)

/-- Value `json.loads` can produce on success: a JSON object (a dict, read
out into a `Prescription` via the `.get` calls of `main.py`), or any other
JSON value — `null`, a number, a string, an array — which has no `.get`
method, so the first `structured_data.get(...)` on it raises
`AttributeError`.  The AI contract gives "no structural guarantee on
output" (spec §6), so both cases are reachable. -/
inductive PyJson where
  | obj (p : Prescription)
  | nonObj
deriving DecidableEq

/-- Embedding of `parse_with_ai` (`main.py`, lines 57-76).  `gen` is the AI
collaborator's response text (`model.generate_content(prompt).text`), or an
exception; `jparse` is `json.loads` on the cleaned response text
(`Option.none` when it raises on unparseable text, `some` of the parsed
JSON value otherwise — an object or not, see `PyJson`).  The `try` of the
source catches both a generation exception and a parse failure and returns
the fixed fallback record; a successfully parsed non-object value is
returned as is. -/
def parse_with_ai (gen : Except Unit (List Char))
    (jparse : List Char → Option PyJson) : PyJson :=
  match gen with
  | Except.error _ => PyJson.obj fallbackPrescription
  | Except.ok txt =>
    match jparse (cleanResponse txt) with
    | some v => v
    | Option.none => PyJson.obj fallbackPrescription

/-- Bool test that `needle` occurs as a contiguous substring of `hay`:
Python `needle in hay` on strings. -/
def hasSub (needle : List Char) : List Char → Bool
  | [] => needle.isEmpty
  | c :: t => needle.isPrefixOf (c :: t) || hasSub needle t

/-- Joined, lowercased test names: `" ".join(test_names).lower()`
(`maps_service_osm.py`, line 76), lower-casing character-wise. -/
def joinLower (test_names : List String) : List Char :=
  (String.intercalate " " test_names).toList.map Char.toLower

/-- Query-intent selection of `find_labs_osm` (`maps_service_osm.py`, lines
76-82): "x-ray" or "scan" in the joined lowercased names gives "Diagnostic
Centre", else "blood" gives "Pathology Lab", else "Hospital". -/
def selectIntent (test_names : List String) : String :=
  let tests_str := joinLower test_names
  if hasSub ("x-ray".toList) tests_str || hasSub ("scan".toList) tests_str then
    "Diagnostic Centre"
  else if hasSub ("blood".toList) tests_str then
    "Pathology Lab"
  else
    "Hospital"

/-- Raw facility record of the Nominatim response as `find_labs_osm` reads
it (`maps_service_osm.py`, lines 43-46): `place.get("lat")`,
`place.get("lon")` (a numeric string, or `None` when missing), and
`place.get("display_name", "")`. -/
structure Place where
  lat : PyVal
  lon : PyVal
  display_name : String
deriving DecidableEq

/-- Ranked facility entry appended by the loop of `find_labs_osm`
(`maps_service_osm.py`, lines 57-64).  The per-entry Google-Maps link of the
source is the URL `search/?api=1&query={name}&query_place_id={lat},{lon}`;
it is carried here as its data, the pair of raw coordinates. -/
structure Lab where
  name : String
  full_address : String
  lat : PyVal
  lon : PyVal
  distance_km : ℝ

/-- Lab entry built from a place at a computed distance:
`name = place.get("display_name", "").split(",")[0]` and the raw
coordinates are copied through. -/
noncomputable def mkLab (place : Place) (dist : ℝ) : Lab :=
  Lab.mk ((place.display_name.splitOn ",").headD "") place.display_name
    place.lat place.lon dist

/-- Ordering key of `labs_list.sort(key=lambda x: x["distance_km"])`. -/
def labLE (a b : Lab) : Prop := a.distance_km ≤ b.distance_km

noncomputable instance : DecidableRel labLE :=
  fun a b => inferInstanceAs (Decidable (a.distance_km ≤ b.distance_km))

instance : IsTotal Lab labLE := ⟨fun a b => le_total a.distance_km b.distance_km⟩

instance : IsTrans Lab labLE := ⟨fun _ _ _ h1 h2 => le_trans h1 h2⟩

/-- Python `list.sort` ascending by `distance_km` (stable). -/
noncomputable def sortLabs (l : List Lab) : List Lab := List.insertionSort labLE l

/-- Main search link of `find_labs_osm` (`maps_service_osm.py`, lines
86-87), carried as its data: the query term and the origin of the
`{query_term} near {lat},{lng}` URL. -/
structure SearchLink where
  query_term : String
  lat : ℚ
  lng : ℚ
deriving DecidableEq

/-- Navigation link of `find_labs_osm` (`maps_service_osm.py`, lines
94-99), carried as its data: origin and the best lab's raw coordinates. -/
structure DirLink where
  origin_lat : ℚ
  origin_lng : ℚ
  dest_lat : PyVal
  dest_lon : PyVal
deriving DecidableEq

/-- Return value of `find_labs_osm` (`maps_service_osm.py`, lines 101-105).
`map_directions_link = Option.none` models the empty string `""` the source
returns when no lab was found (which is falsy in `main.py`, line 119). -/
structure MapData where
  labs : List Lab
  map_search_link : SearchLink
  map_directions_link : Option DirLink

/-- Loop body of `find_labs_osm` (`maps_service_osm.py`, lines 43-64):
recompute the candidate's distance from the origin with the engine `d` and
keep the candidate when `dist <= 15.0` (false for a NaN distance, since
`nan <= 15.0` is False in Python). -/
noncomputable def candLab (d : ℚ → ℚ → PyVal → PyVal → FloatR) (lat lng : ℚ)
    (place : Place) : Option Lab :=
  match d lat lng place.lat place.lon with
  | FloatR.nan => Option.none
  | FloatR.val dist =>
    if dist ≤ 15 then some (mkLab place dist) else Option.none

/-- Embedding of `find_labs_osm` (`maps_service_osm.py`, lines 17-105),
parametric in the distance engine `d` (the pipeline instantiates it with
`calculate_distance`, see `distEngine`).  `fetch` is the Nominatim response
(`requests.get(...).json()`), or an exception: the `try` of the source turns
any fetch failure into an empty `labs_list`.  Kept candidates are sorted
ascending by recomputed distance and truncated to 5 entries on return,
while the navigation link uses the head of the full sorted list. -/
noncomputable def find_labs_osm (d : ℚ → ℚ → PyVal → PyVal → FloatR)
    (fetch : Except Unit (List Place)) (lat lng : ℚ)
    (test_names : List String) : MapData :=
  let labs_list : List Lab :=
    match fetch with
    | Except.error _ => []
    | Except.ok data => sortLabs (data.filterMap (candLab d lat lng))
  let query_term := selectIntent test_names
  MapData.mk (labs_list.take 5) (SearchLink.mk query_term lat lng)
    (match labs_list with
     | [] => Option.none
     | best :: _ => some (DirLink.mk lat lng best.lat best.lon))

/-- Modelled from the spec: the return value of `add_checkup_event`
(`calendar_service.py` is not part of the staged sources).  Per §6 of the
spec the calendar collaborator is `scheduleFollowUp(date, title) -> status
record` whose "failure must be reported, not fatal", so it is modelled as a
total function returning a status record carrying a success flag. -/
structure CalendarStatus where
  ok : Bool
  detail : String
deriving DecidableEq

/-- Modelled from the spec: one entry of the purchasing agent's report
(`agent/bot.py` is not part of the staged sources); a record with a status
field, so that "a report entry describing the failure (status = "Agent
Crashed")" is statable about the assembled result. -/
structure ReportEntry where
  status : String
  detail : String
deriving DecidableEq

/-- External collaborators of one request of `process_prescription`, one
field per call site of `main.py`. -/
structure Env where
  /-- Result of `reader.readtext(temp_filename, detail=0)` (line 92). -/
  ocr_result : List String
  /-- Response text of `model.generate_content(prompt)` in `parse_with_ai`
  (line 71), or the exception it raises. -/
  gen_content : Except Unit (List Char)
  /-- Behaviour of `json.loads` on the cleaned response text (line 73):
  `Option.none` when it raises on unparseable text, otherwise the parsed
  JSON value — `PyJson.obj` of the record the `.get` read-outs (lines 97,
  108, 130) see on a dict, or `PyJson.nonObj` for valid non-object JSON
  such as `null`, on which `.get` raises `AttributeError`. -/
  jparse : List Char → Option PyJson
  /-- Modelled from the spec: `add_checkup_event(date, title)` (line 99),
  a total status-returning collaborator (spec §6). -/
  calendar : String → String → CalendarStatus
  /-- Response of `requests.get("http://ip-api.com/json")` in
  `get_auto_location` (lines 47-51): status string, lat, lon — or the
  exception the request or JSON access raises. -/
  auto_loc : Except Unit (String × ℚ × ℚ)
  /-- Nominatim response of the `requests.get` in `find_labs_osm`, or the
  exception that makes its `except` branch empty the list. -/
  osm_fetch : Except Unit (List Place)
  /-- Construction `PharmaAgent()` (line 133): succeeds or raises. -/
  agent_init : Except Unit Unit
  /-- Call `bot.process_order(medicines, user_priority=priority)` (line
  134): the report, or the exception it raises. -/
  agent_order : List Medicine → String → Except Unit (List ReportEntry)

/-- Embedding of `get_auto_location` (`main.py`, lines 44-54): on a
successful IP lookup with `status == "success"` the detected coordinates
are returned; any exception, and a non-success status, fall through to the
sentinel `(0.0, 0.0)`. -/
def get_auto_location (r : Except Unit (String × ℚ × ℚ)) : ℚ × ℚ :=
  match r with
  | Except.ok (st, la, lo) => if st = "success" then (la, lo) else (0, 0)
  | Except.error _ => (0, 0)

/-- URL `main.py` opens and returns as `map_opened`: the navigation link
when `find_labs_osm` produced one (non-empty string), else the always
present search link (lines 118-120). -/
inductive MapUrl where
  | dirs (l : DirLink)
  | search (s : SearchLink)
deriving DecidableEq

/-- Response record of `process_prescription` (`main.py`, lines 142-149). -/
structure PipeResult where
  status : String
  tests_found : List String
  map_opened : Option MapUrl
  calendar_event : Option CalendarStatus
  agent_report : List ReportEntry
  data : Prescription

/-- Observable side effects of one `process_prescription` request: whether
`find_labs_osm` was invoked (line 115), whether `PharmaAgent()` was
constructed (line 133), and whether `bot.close()` ran (lines 137, 140). -/
structure Trace where
  find_labs_called : Bool
  bot_created : Bool
  bot_closed : Bool
deriving DecidableEq

/-- Distance engine as `find_labs_osm` invokes it (`maps_service_osm.py`,
line 48): `calculate_distance(lat, lng, p_lat, p_lon)` with the numeric
origin and the raw candidate coordinates. -/
noncomputable def distEngine (la ln : ℚ) (plat plon : PyVal) : FloatR :=
  calculate_distance (PyVal.num la) (PyVal.num ln) plat plon

/-- Steps of the endpoint body `process_prescription` (`main.py`, lines
95-149) on an extracted JSON OBJECT `structured_data`: the calendar step on
`next_visit`, the maps step when tests were detected and `find_labs` is set
(skipped when the auto-location latitude is the sentinel `0.0`, line 114),
and the purchasing step whose exceptions are caught (lines 138-140),
leaving the report list as initialised (empty) while `bot.close()` still
runs on a constructed bot.  The assembled response carries
`status = "success"` (line 143). -/
noncomputable def processOk (env : Env) (priority : String)
    (find_labs : Bool) (structured_data : Prescription) : PipeResult × Trace :=
  let calendar_status : Option CalendarStatus :=
    match structured_data.next_visit with
    | some d => some (env.calendar d "Doctor Follow-up")
    | Option.none => Option.none
  let detected_tests := structured_data.tests
  let mapStep : Option MapUrl × Bool :=
    if detected_tests ≠ [] ∧ find_labs then
      let loc := get_auto_location env.auto_loc
      if loc.1 ≠ 0 then
        let map_data := find_labs_osm distEngine env.osm_fetch
          loc.1 loc.2 detected_tests
        let url := match map_data.map_directions_link with
          | some dl => some (MapUrl.dirs dl)
          | Option.none => some (MapUrl.search map_data.map_search_link)
        (url, true)
      else (Option.none, false)
    else (Option.none, false)
  let botStep : List ReportEntry × Bool × Bool :=
    if structured_data.medicines ≠ [] then
      match env.agent_init with
      | Except.error _ => ([], false, false)
      | Except.ok _ =>
        match env.agent_order structured_data.medicines priority with
        | Except.ok rep => (rep, true, true)
        | Except.error _ => ([], true, true)
    else ([], false, false)
  (PipeResult.mk "success" detected_tests mapStep.1 calendar_status botStep.1 structured_data,
   Trace.mk mapStep.2 botStep.2.1 botStep.2.2)

/-- Embedding of the endpoint body `process_prescription` (`main.py`,
lines 89-153).  When the AI step yields a JSON object (a dict — also the
fallback record on an AI failure), the pipeline runs `processOk` and the
request returns its response.  When `json.loads` succeeded on valid
non-object JSON (e.g. `null`), `structured_data.get("next_visit")` at line
97 raises `AttributeError`; the surrounding `try` has only a `finally`
(line 151), so the exception escapes the endpoint and the request FAILS
with an error response instead of returning `status = "success"`. -/
noncomputable def process_prescription (env : Env) (priority : String)
    (find_labs : Bool) : Except Unit (PipeResult × Trace) :=
  match parse_with_ai env.gen_content env.jparse with
  | PyJson.obj structured_data =>
    Except.ok (processOk env priority find_labs structured_data)
  | PyJson.nonObj => Except.error ()

/-- Env update helper: the same collaborators with another purchasing-order
behaviour (used to compare a crashing run with a successful one). -/
def withOrder (env : Env)
    (f : List Medicine → String → Except Unit (List ReportEntry)) : Env :=
  Env.mk env.ocr_result env.gen_content env.jparse env.calendar env.auto_loc
    env.osm_fetch env.agent_init f

/-- Concrete medicine entry for instantiations. -/
def medW : Medicine := Medicine.mk "Paracetamol" "650mg" "1-0-1"

/-- Concrete prescription with one medicine and a follow-up date. -/
def presMedsW : Prescription := Prescription.mk [medW] [] (some "2024-01-04")

/-- Concrete prescription with one detected test and no medicines. -/
def presTestsW : Prescription := Prescription.mk [] ["Blood Test"] Option.none

/-- Concrete environment in which the AI step parses to `presMedsW`, the
purchasing agent constructs but its `process_order` raises, and the
locator and the OSM fetch raise. -/
def envBotFail : Env :=
  Env.mk [] (Except.ok []) (fun _ => some (PyJson.obj presMedsW))
    (fun d t => CalendarStatus.mk true (d ++ "/" ++ t)) (Except.error ())
    (Except.error ()) (Except.ok ()) (fun _ _ => Except.error ())

/-- Concrete environment in which tests are detected but the IP locator
raises, so the resolved origin is the sentinel `(0, 0)`. -/
def envLoc0 : Env :=
  Env.mk [] (Except.ok []) (fun _ => some (PyJson.obj presTestsW))
    (fun d t => CalendarStatus.mk true (d ++ "/" ++ t)) (Except.error ())
    (Except.error ()) (Except.error ()) (fun _ _ => Except.ok [])

/-- Concrete environment in which the AI responds with valid JSON that is
not an object — `json.loads("null")` succeeds and returns `None` — while
every other collaborator behaves. -/
def envNonObj : Env :=
  Env.mk [] (Except.ok (("null").toList)) (fun _ => some PyJson.nonObj)
    (fun d t => CalendarStatus.mk true (d ++ "/" ++ t)) (Except.error ())
    (Except.error ()) (Except.ok ()) (fun _ _ => Except.ok [])

/-- Concrete places for the ranking example: the distance function `dW`
sends them to 5 km, 20 km and 2 km from any origin. -/
def pW1 : Place := Place.mk (PyVal.num 1) (PyVal.num 1) "Alpha Clinic, Street 1"

/-- Second concrete place (20 km under `dW`). -/
def pW2 : Place := Place.mk (PyVal.num 2) (PyVal.num 2) "Beta Hospital, Street 2"

/-- Third concrete place (2 km under `dW`). -/
def pW3 : Place := Place.mk (PyVal.num 3) (PyVal.num 3) "Gamma Lab, Street 3"

/-- Concrete distance engine realising the 5 km / 20 km / 2 km example. -/
noncomputable def dW : ℚ → ℚ → PyVal → PyVal → FloatR := fun _ _ plat _ =>
  if plat = PyVal.num 1 then FloatR.val 5
  else if plat = PyVal.num 2 then FloatR.val 20
  else FloatR.val 2

/-- Concrete place whose latitude is missing (`place.get("lat")` is None). -/
def pmW : Place := Place.mk PyVal.noneV (PyVal.num 77) "Mystery Medical, Nowhere"

/-- Concrete genuinely-located place at latitude 0, longitude 1 (111.19 km
from the origin (0, 0) under `calculate_distance`). -/
def pgW : Place := Place.mk (PyVal.num 0) (PyVal.num 1) "Genuine Hospital, Equator"

/-- Claim C4, counterexample: the code's intent selector matches only
"x-ray"/"scan" and "blood"; "cbc", "mri" and "urine" are not checked
(`maps_service_osm.py`, lines 77-82), so selectIntent({"CBC"}) is
"Hospital", not "Pathology Lab", and "MRI"/"Urine" likewise fall through
to "Hospital". -/
theorem C4_selectIntent_cbc_mri_urine_fall_through :
    selectIntent ["CBC"] = "Hospital" ∧ selectIntent ["MRI"] = "Hospital" ∧
      selectIntent ["Urine Test"] = "Hospital" := by
  refine ⟨by decide, by decide, by decide⟩

/-- Claim C4, amended: selectIntent returns "Diagnostic Centre" if the
joined lowercased names contain "x-ray" or "scan" (not "mri"); otherwise
"Pathology Lab" if they contain "blood" (not "cbc"/"urine"); otherwise
"Hospital".  First rule wins: selectIntent({"X-Ray","Blood Test"}) =
"Diagnostic Centre"; selectIntent({}) = "Hospital"; and
selectIntent({"CBC"}) = "Hospital". -/
theorem C4_selectIntent_amended :
    (∀ ts, (hasSub ("x-ray".toList) (joinLower ts)
        || hasSub ("scan".toList) (joinLower ts)) = true →
      selectIntent ts = "Diagnostic Centre") ∧
    (∀ ts, (hasSub ("x-ray".toList) (joinLower ts)
        || hasSub ("scan".toList) (joinLower ts)) = false →
      hasSub ("blood".toList) (joinLower ts) = true →
      selectIntent ts = "Pathology Lab") ∧
    (∀ ts, (hasSub ("x-ray".toList) (joinLower ts)
        || hasSub ("scan".toList) (joinLower ts)) = false →
      hasSub ("blood".toList) (joinLower ts) = false →
      selectIntent ts = "Hospital") ∧
    selectIntent ["X-Ray", "Blood Test"] = "Diagnostic Centre" ∧
    selectIntent [] = "Hospital" ∧
    selectIntent ["CBC"] = "Hospital" := by
  refine ⟨?_, ?_, ?_, by decide, by decide, by decide⟩
  · intro ts h
    rw [Bool.or_eq_true] at h
    rcases h with h | h <;> simp_all [selectIntent]
  · intro ts h1 h2
    rw [Bool.or_eq_false_iff] at h1
    obtain ⟨ha, hb⟩ := h1
    simp_all [selectIntent]
  · intro ts h1 h2
    rw [Bool.or_eq_false_iff] at h1
    obtain ⟨ha, hb⟩ := h1
    simp_all [selectIntent]

/-- Claim C3, counterexample: on a non-JSON AI response the extractor
returns the fallback record whose `medicines` and `tests` are the empty
list (`main.py`, line 76), not non-empty demonstration values. -/
theorem C3_fallback_fields_are_empty :
    parse_with_ai (Except.ok (("cannot parse this").toList)) (fun _ => Option.none)
      = PyJson.obj fallbackPrescription ∧
    fallbackPrescription.medicines = [] ∧
    fallbackPrescription.tests = [] := by
  exact ⟨rfl, rfl, rfl⟩

/-- Claim C3, amended: for every AI response that is not parseable as the
required JSON object (after fence stripping), the extractor does not
propagate the failure and returns the fixed fallback record, whose
`medicines` and `tests` fields are non-null but EMPTY lists and whose
`next_visit` is null. -/
theorem C3_unparseable_response_gives_fallback :
    (∀ txt jparse, jparse (cleanResponse txt) = Option.none →
      parse_with_ai (Except.ok txt) jparse = PyJson.obj fallbackPrescription) ∧
    (∀ jparse, parse_with_ai (Except.error ()) jparse = PyJson.obj fallbackPrescription) ∧
    fallbackPrescription.medicines = [] ∧
    fallbackPrescription.tests = [] ∧
    fallbackPrescription.next_visit = Option.none ∧
    parse_with_ai (Except.ok (("no json here").toList)) (fun _ => Option.none)
      = PyJson.obj fallbackPrescription := by
  refine ⟨?_, fun _ => rfl, rfl, rfl, rfl, rfl⟩
  intro txt jparse h
  simp [parse_with_ai, h]

/-- Helper: the haversine of a point to itself is exactly 0. -/
theorem calculate_distanceR_self (la lo : ℝ) : calculate_distanceR la lo la lo = 0 := by
  simp only [calculate_distanceR, radiansR, round2, sub_self]
  norm_num [Real.sin_zero, Real.sqrt_zero, Real.arcsin_zero]

/-- Helper: the haversine computation is symmetric in its two points. -/
theorem calculate_distanceR_symm (la1 lo1 la2 lo2 : ℝ) :
    calculate_distanceR la1 lo1 la2 lo2 = calculate_distanceR la2 lo2 la1 lo1 := by
  have key : ∀ A B C D : ℝ,
      Real.sin ((D - B) / 2) ^ 2 + Real.cos B * Real.cos D * Real.sin ((C - A) / 2) ^ 2
        = Real.sin ((B - D) / 2) ^ 2 + Real.cos D * Real.cos B * Real.sin ((A - C) / 2) ^ 2 := by
    intro A B C D
    rw [show (B - D) / 2 = -((D - B) / 2) by ring, show (A - C) / 2 = -((C - A) / 2) by ring,
      Real.sin_neg, Real.sin_neg, neg_sq, neg_sq, mul_comm (Real.cos D) (Real.cos B)]
  simp only [calculate_distanceR]
  rw [key (radiansR lo1) (radiansR la1) (radiansR lo2) (radiansR la2)]

/-- Helper: the haversine distance from (0,0) to (0,1) is exactly 111.19
after rounding (6371 * pi / 180 = 111.1949...). -/
theorem calculate_distanceR_0001 : calculate_distanceR 0 0 0 1 = 111.19 := by
  simp only [calculate_distanceR, radiansR]
  have e0 : (0 : ℝ) * (Real.pi / 180) = 0 := by ring
  have e1 : (1 : ℝ) * (Real.pi / 180) - 0 = Real.pi / 180 := by ring
  rw [e0, e1]
  have e2 : ((0 : ℝ) - 0) / 2 = 0 := by ring
  rw [e2, Real.sin_zero, Real.cos_zero]
  have e3 : Real.pi / 180 / 2 = Real.pi / 360 := by ring
  rw [e3]
  have hpi := Real.pi_pos
  have hs0 : 0 ≤ Real.sin (Real.pi / 360) :=
    Real.sin_nonneg_of_nonneg_of_le_pi (by positivity) (by linarith)
  have ha1 : Real.sin (Real.pi / 360) ^ 2 ≤ 1 := Real.sin_sq_le_one _
  have ha0 : (0 : ℝ) ≤ Real.sin (Real.pi / 360) ^ 2 := sq_nonneg _
  rw [if_neg (by push_neg; constructor <;> nlinarith)]
  have e4 : (0 : ℝ) ^ 2 + 1 * 1 * Real.sin (Real.pi / 360) ^ 2
      = Real.sin (Real.pi / 360) ^ 2 := by ring
  rw [e4, Real.sqrt_sq_eq_abs, abs_of_nonneg hs0,
    Real.arcsin_sin (by linarith) (by linarith)]
  simp only [round2]
  have hv : 2 * (Real.pi / 360) * 6371 * 100 = Real.pi * (31855 / 9) := by ring
  have hfl : round (2 * (Real.pi / 360) * 6371 * 100) = (11119 : ℤ) := by
    rw [round_eq, hv, Int.floor_eq_iff]
    constructor
    · push_cast
      nlinarith [Real.pi_gt_d6]
    · push_cast
      nlinarith [Real.pi_lt_d6]
  rw [hfl]
  norm_num

/-- Helper: the known-pair value at the PyVal level. -/
theorem calculate_distance_0001 :
    calculate_distance (PyVal.num 0) (PyVal.num 0) (PyVal.num 0) (PyVal.num 1)
      = FloatR.val (111.19 : ℝ) := by
  simp only [calculate_distance, pyFloat]
  norm_num
  rw [calculate_distanceR_0001]
  norm_num

/-- Claim C6: on numeric coordinates, distance(a, a) = 0.0 for every a;
distance(a, b) = distance(b, a) for all a, b; and the distance from (0, 0)
to (0, 1) is exactly 111.19 km (haversine, Earth radius 6371 km, rounded
to 2 decimals). -/
theorem C6_distance_zero_symm_known_pair :
    (∀ la lo : ℚ, calculate_distance (PyVal.num la) (PyVal.num lo)
      (PyVal.num la) (PyVal.num lo) = FloatR.val 0) ∧
    (∀ la1 lo1 la2 lo2 : ℚ,
      calculate_distance (PyVal.num la1) (PyVal.num lo1) (PyVal.num la2) (PyVal.num lo2)
        = calculate_distance (PyVal.num la2) (PyVal.num lo2) (PyVal.num la1) (PyVal.num lo1)) ∧
    calculate_distance (PyVal.num 0) (PyVal.num 0) (PyVal.num 0) (PyVal.num 1)
      = FloatR.val (111.19 : ℝ) := by
  refine ⟨?_, ?_, ?_⟩
  · intro la lo
    simp only [calculate_distance, pyFloat]
    rw [calculate_distanceR_self]
  · intro la1 lo1 la2 lo2
    simp only [calculate_distance, pyFloat]
    rw [calculate_distanceR_symm]
  · exact calculate_distance_0001

/-- Helper: a conversion exception in either raw candidate coordinate makes
`calculate_distance` return 0.0 (the caught-exception path). -/
theorem calculate_distance_raise_right (q1 q2 : ℚ) (v3 v4 : PyVal)
    (h : pyFloat v3 = Except.error () ∨ pyFloat v4 = Except.error ()) :
    calculate_distance (PyVal.num q1) (PyVal.num q2) v3 v4 = FloatR.val 0 := by
  cases v3 <;> cases v4 <;> simp_all [calculate_distance, pyFloat]

/-- Claim C7, counterexample: a NaN coordinate does not yield 0.0; the NaN
propagates through the math calls of `calculate_distance` and the result is
NaN (which is not an exception, so the `except` fallback never runs). -/
theorem C7_nan_input_gives_nan :
    calculate_distance PyVal.nan (PyVal.num 0) (PyVal.num 0) (PyVal.num 0) = FloatR.nan ∧
      FloatR.nan ≠ FloatR.val 0 := by
  exact ⟨rfl, fun h => FloatR.noConfusion h⟩

/-- Claim C7, amended: `calculate_distance` never raises (it is total); an
input on which `float(...)` raises (a missing coordinate, a non-numeric
string) yields 0.0 through the caught exception, while a NaN input yields
NaN, not 0.0. -/
theorem C7_invalid_input_policy :
    (∀ v1 v2 v3 v4 : PyVal,
      (pyFloat v1 = Except.error () ∨ pyFloat v2 = Except.error () ∨
        pyFloat v3 = Except.error () ∨ pyFloat v4 = Except.error ()) →
      calculate_distance v1 v2 v3 v4 = FloatR.val 0) ∧
    (∀ v1 v2 v3 v4 : PyVal,
      pyFloat v1 ≠ Except.error () → pyFloat v2 ≠ Except.error () →
      pyFloat v3 ≠ Except.error () → pyFloat v4 ≠ Except.error () →
      (v1 = PyVal.nan ∨ v2 = PyVal.nan ∨ v3 = PyVal.nan ∨ v4 = PyVal.nan) →
      calculate_distance v1 v2 v3 v4 = FloatR.nan) ∧
    calculate_distance PyVal.noneV (PyVal.num 1) (PyVal.num 2) (PyVal.num 3)
      = FloatR.val 0 ∧
    calculate_distance (PyVal.num 1) PyVal.badstr (PyVal.num 2) (PyVal.num 3)
      = FloatR.val 0 := by
  refine ⟨?_, ?_, rfl, rfl⟩
  · intro v1 v2 v3 v4 h
    cases v1 <;> cases v2 <;> cases v3 <;> cases v4 <;> simp_all [calculate_distance, pyFloat]
  · intro v1 v2 v3 v4 h1 h2 h3 h4 h
    cases v1 <;> cases v2 <;> cases v3 <;> cases v4 <;> simp_all [calculate_distance, pyFloat]

/-- Helper: removing occurrences from the empty string gives the empty string. -/
theorem stripOcc_nil (p : Char) (ps : List Char) : stripOcc p ps [] = [] := by
  simp [stripOcc]

theorem stripOcc_cons (p : Char) (ps : List Char) (c : Char) (rest : List Char) :
    stripOcc p ps (c :: rest) =
      if (p :: ps).isPrefixOf (c :: rest) then stripOcc p ps (rest.drop ps.length)
      else c :: stripOcc p ps rest := by
  rw [stripOcc]

theorem isPrefixOf_true_iff (l1 l2 : List Char) : l1.isPrefixOf l2 = true ↔ l1 <+: l2 :=
  List.isPrefixOf_iff_prefix

theorem isPrefixOf_append_nl (pat : List Char) (hnl : '\n' ∉ pat) :
    ∀ x y : List Char, pat.isPrefixOf (x ++ '\n' :: y) = pat.isPrefixOf x := by
  induction pat with
  | nil => intro x y; simp [List.isPrefixOf]
  | cons a as ih =>
    intro x y
    have ha : a ≠ '\n' := fun h => hnl (h ▸ List.mem_cons_self a as)
    have has : '\n' ∉ as := fun h => hnl (List.mem_cons_of_mem a h)
    cases x with
    | nil =>
      simp only [List.nil_append, List.isPrefixOf]
      simp [beq_eq_false_iff_ne.mpr ha]
    | cons b bs =>
      simp only [List.cons_append, List.isPrefixOf, List.append_eq]
      rw [ih has bs y]

theorem isPrefixOf_le_length (l1 l2 : List Char) (h : l1.isPrefixOf l2 = true) :
    l1.length ≤ l2.length :=
  ((isPrefixOf_true_iff l1 l2).mp h).length_le

theorem stripOcc_append_nl_aux (p : Char) (ps : List Char) (hnl : '\n' ∉ p :: ps) :
    ∀ n x y, x.length ≤ n →
      stripOcc p ps (x ++ '\n' :: y) = stripOcc p ps x ++ '\n' :: stripOcc p ps y := by
  intro n
  induction n with
  | zero =>
    intro x y hx
    have hx0 : x = [] := List.eq_nil_of_length_eq_zero (Nat.le_zero.mp hx)
    subst hx0
    simp only [List.nil_append, stripOcc_nil]
    rw [stripOcc_cons]
    have hc : (p :: ps).isPrefixOf ('\n' :: y) = false := by
      have : (p :: ps).isPrefixOf ('\n' :: y) = (p :: ps).isPrefixOf ([] : List Char) := by
        have := isPrefixOf_append_nl (p :: ps) hnl [] y
        simpa using this
      rw [this]
      simp [List.isPrefixOf]
    rw [hc]
    simp
  | succ n ih =>
    intro x y hx
    cases x with
    | nil =>
      simp only [List.nil_append, stripOcc_nil]
      rw [stripOcc_cons]
      have hc : (p :: ps).isPrefixOf ('\n' :: y) = false := by
        have h2 := isPrefixOf_append_nl (p :: ps) hnl [] y
        simp only [List.nil_append] at h2
        rw [h2]
        simp [List.isPrefixOf]
      rw [hc]
      simp
    | cons c x2 =>
      have hsplit : (c :: x2) ++ '\n' :: y = c :: (x2 ++ '\n' :: y) := by simp
      rw [hsplit, stripOcc_cons, stripOcc_cons]
      have hcond : (p :: ps).isPrefixOf (c :: (x2 ++ '\n' :: y))
          = (p :: ps).isPrefixOf (c :: x2) := by
        have h2 := isPrefixOf_append_nl (p :: ps) hnl (c :: x2) y
        simpa using h2
      rw [hcond]
      by_cases hp : (p :: ps).isPrefixOf (c :: x2) = true
      · rw [hp]
        simp only [if_true]
        have hlen : ps.length ≤ x2.length := by
          have := isPrefixOf_le_length (p :: ps) (c :: x2) hp
          simpa using this
        rw [List.drop_append_of_le_length hlen]
        have hx2 : (x2.drop ps.length).length ≤ n := by
          simp only [List.length_drop]
          have : x2.length ≤ n := by
            simpa using Nat.le_of_succ_le_succ hx
          omega
        exact ih (x2.drop ps.length) y hx2
      · rw [Bool.not_eq_true] at hp
        rw [hp]
        simp only [if_false, Bool.false_eq_true]
        have hx2 : x2.length ≤ n := by simpa using Nat.le_of_succ_le_succ hx
        rw [ih x2 y hx2]
        simp

theorem stripOcc_append_nl (p : Char) (ps : List Char) (hnl : '\n' ∉ p :: ps)
    (x y : List Char) :
    stripOcc p ps (x ++ '\n' :: y) = stripOcc p ps x ++ '\n' :: stripOcc p ps y :=
  stripOcc_append_nl_aux p ps hnl x.length x y le_rfl

theorem stripOcc_self (p : Char) (ps : List Char) : stripOcc p ps (p :: ps) = [] := by
  rw [stripOcc_cons]
  have : (p :: ps).isPrefixOf (p :: ps) = true :=
    (isPrefixOf_true_iff _ _).mpr (List.prefix_refl _)
  rw [this]
  simp [List.drop_length, stripOcc_nil]

theorem stripOcc_short (p : Char) (ps : List Char) :
    ∀ s : List Char, s.length < ps.length + 1 → stripOcc p ps s = s := by
  intro s
  induction s with
  | nil => intro h; exact stripOcc_nil p ps
  | cons c rest ih =>
    intro h
    rw [stripOcc_cons]
    have hc : (p :: ps).isPrefixOf (c :: rest) = false := by
      by_contra hcon
      rw [Bool.not_eq_false] at hcon
      have := isPrefixOf_le_length _ _ hcon
      simp only [List.length_cons] at this h
      omega
    rw [hc]
    simp only [if_false, Bool.false_eq_true]
    rw [ih (by simp at h ⊢; omega)]

theorem pytrim_cons_nl (z : List Char) : pytrim ('\n' :: z) = pytrim z := by
  simp [pytrim, List.dropWhile_cons, isPySpace]

theorem pytrim_append_nl (z : List Char) : pytrim (z ++ ['\n']) = pytrim z := by
  simp only [pytrim, List.dropWhile_append]
  by_cases he : (z.dropWhile isPySpace).isEmpty = true
  · rw [if_pos he]
    rw [List.isEmpty_iff] at he
    rw [he]
    simp [List.dropWhile_cons, isPySpace]
  · rw [if_neg he]
    simp only [List.reverse_append, List.reverse_cons, List.reverse_nil, List.nil_append,
      List.singleton_append, List.dropWhile_cons]
    simp [isPySpace]

theorem cleanResponse_wrapFence (s : List Char) :
    cleanResponse (wrapFence s) = cleanResponse s := by
  have hnl1 : '\n' ∉ ('`' :: "``json".toList) := by decide
  have hnl2 : '\n' ∉ ('`' :: "``".toList) := by decide
  have hwrap : wrapFence s = ("```json".toList) ++ '\n' :: (s ++ '\n' :: "```".toList) := by
    simp [wrapFence]
  have hr1 : replaceRemove ("```json".toList) (wrapFence s)
      = '\n' :: (replaceRemove ("```json".toList) s ++ '\n' :: "```".toList) := by
    rw [hwrap]
    show stripOcc '`' ("``json".toList) _ = _
    rw [stripOcc_append_nl '`' ("``json".toList) hnl1]
    rw [stripOcc_append_nl '`' ("``json".toList) hnl1 s ("```".toList)]
    rw [show ("```json".toList) = '`' :: "``json".toList from rfl, stripOcc_self]
    rw [stripOcc_short '`' ("``json".toList) ("```".toList) (by decide)]
    rfl
  have hr2 : replaceRemove ("```".toList)
        ('\n' :: (replaceRemove ("```json".toList) s ++ '\n' :: "```".toList))
      = '\n' :: (replaceRemove ("```".toList) (replaceRemove ("```json".toList) s) ++ ['\n']) := by
    show stripOcc '`' ("``".toList) _ = _
    rw [show ('\n' :: (replaceRemove ("```json".toList) s ++ '\n' :: "```".toList))
        = ([] : List Char) ++ '\n' :: (replaceRemove ("```json".toList) s ++ '\n' :: "```".toList)
      from rfl]
    rw [stripOcc_append_nl '`' ("``".toList) hnl2]
    rw [stripOcc_append_nl '`' ("``".toList) hnl2 _ ("```".toList)]
    rw [show ("```".toList) = '`' :: "``".toList from rfl, stripOcc_self]
    rw [stripOcc_nil]
    rfl
  simp only [cleanResponse]
  rw [hr1, hr2, pytrim_cons_nl, pytrim_append_nl]

/-- Claim C9: for every AI response string, the extractor applied to the
response wrapped in markdown code fences yields the same parsed record as
the extractor applied to the bare response — the two cleaned strings
coincide, so in particular every response that parses as a JSON object
parses to the same record both ways. -/
theorem C9_fenced_response_parses_same :
    ∀ (jparse : List Char → Option PyJson) (s : List Char),
      parse_with_ai (Except.ok (wrapFence s)) jparse = parse_with_ai (Except.ok s) jparse := by
  intro jparse s
  simp only [parse_with_ai, cleanResponse_wrapFence]

/-- Helper: field equation of `find_labs_osm` on a successful fetch. -/
theorem find_labs_osm_ok_labs (d : ℚ → ℚ → PyVal → PyVal → FloatR)
    (data : List Place) (lat lng : ℚ) (ts : List String) :
    (find_labs_osm d (Except.ok data) lat lng ts).labs
      = (sortLabs (data.filterMap (candLab d lat lng))).take 5 := rfl

/-- Helper: navigation-link equation of `find_labs_osm` on a successful
fetch: built from the head of the full sorted list. -/
theorem find_labs_osm_ok_dirs (d : ℚ → ℚ → PyVal → PyVal → FloatR)
    (data : List Place) (lat lng : ℚ) (ts : List String) :
    (find_labs_osm d (Except.ok data) lat lng ts).map_directions_link
      = (match sortLabs (data.filterMap (candLab d lat lng)) with
         | [] => Option.none
         | best :: _ => some (DirLink.mk lat lng best.lat best.lon)) := rfl

/-- Helper: a failed fetch yields an empty ranked list. -/
theorem find_labs_osm_error_labs (d : ℚ → ℚ → PyVal → PyVal → FloatR)
    (lat lng : ℚ) (ts : List String) :
    (find_labs_osm d (Except.error ()) lat lng ts).labs = [] := rfl

/-- Helper: the sort of the ranker is sorted with respect to distance. -/
theorem sortLabs_sorted (l : List Lab) : List.Sorted labLE (sortLabs l) :=
  List.sorted_insertionSort labLE l

/-- Helper: the sort of the ranker is a permutation of its input. -/
theorem sortLabs_perm (l : List Lab) : (sortLabs l).Perm l :=
  List.perm_insertionSort labLE l

/-- Helper: every ranked lab arises from a fetched place whose distance was
recomputed by the engine, passed the 15 km filter, and was copied into the
lab record. -/
theorem mem_find_labs (d : ℚ → ℚ → PyVal → PyVal → FloatR)
    (fetch : Except Unit (List Place)) (lat lng : ℚ) (ts : List String)
    (lab : Lab) (h : lab ∈ (find_labs_osm d fetch lat lng ts).labs) :
    ∃ data place dist, fetch = Except.ok data ∧ place ∈ data ∧
      d lat lng place.lat place.lon = FloatR.val dist ∧ dist ≤ 15 ∧
      lab = mkLab place dist := by
  cases fetch with
  | error e =>
    cases e
    rw [find_labs_osm_error_labs] at h
    simp at h
  | ok data =>
    rw [find_labs_osm_ok_labs] at h
    have h2 : lab ∈ sortLabs (data.filterMap (candLab d lat lng)) :=
      (List.take_sublist 5 _).subset h
    have h3 : lab ∈ data.filterMap (candLab d lat lng) :=
      (sortLabs_perm _).mem_iff.mp h2
    obtain ⟨place, hpmem, hf⟩ := List.mem_filterMap.mp h3
    cases hd : d lat lng place.lat place.lon with
    | nan => simp [candLab, hd] at hf
    | val dist =>
      simp only [candLab, hd] at hf
      by_cases hle : dist ≤ 15
      · rw [if_pos hle] at hf
        exact ⟨data, place, dist, rfl, hpmem, hd, hle, (Option.some.inj hf).symm⟩
      · rw [if_neg hle] at hf
        exact absurd hf (by simp)

/-- Helper: the 5 km / 20 km / 2 km example, for any engine realising those
distances: the 20 km candidate is discarded and the rest sorted ascending. -/
theorem rank_example (d : ℚ → ℚ → PyVal → PyVal → FloatR) (lat lng : ℚ)
    (p1 p2 p3 : Place) (ts : List String)
    (h1 : d lat lng p1.lat p1.lon = FloatR.val 5)
    (h2 : d lat lng p2.lat p2.lon = FloatR.val 20)
    (h3 : d lat lng p3.lat p3.lon = FloatR.val 2) :
    (find_labs_osm d (Except.ok [p1, p2, p3]) lat lng ts).labs
      = [mkLab p3 2, mkLab p1 5] := by
  rw [find_labs_osm_ok_labs]
  have hfm : [p1, p2, p3].filterMap (candLab d lat lng)
      = [mkLab p1 5, mkLab p3 2] := by
    norm_num [List.filterMap_cons, candLab, h1, h2, h3]
  rw [hfm]
  have hs : sortLabs [mkLab p1 5, mkLab p3 2] = [mkLab p3 2, mkLab p1 5] := by
    norm_num [sortLabs, List.insertionSort, List.orderedInsert, labLE, mkLab]
  rw [hs]
  simp

/-- Claim C5: for every origin and candidate sequence, the ranked list of
`find_labs_osm` (with the distance engine `calculate_distance`) has length
at most 5, every returned lab's distance_km is at most 15 and was
recomputed by the engine from the origin, the list is sorted non-decreasing
by distance_km, and candidates at 5 km, 20 km, 2 km rank as exactly
[2 km, 5 km]. -/
theorem C5_facility_ranking :
    (∀ fetch lat lng ts,
      (find_labs_osm distEngine fetch lat lng ts).labs.length ≤ 5) ∧
    (∀ fetch lat lng ts, ∀ lab ∈ (find_labs_osm distEngine fetch lat lng ts).labs,
      lab.distance_km ≤ 15) ∧
    (∀ fetch lat lng ts,
      List.Sorted labLE (find_labs_osm distEngine fetch lat lng ts).labs) ∧
    (∀ data lat lng ts, ∀ lab ∈ (find_labs_osm distEngine (Except.ok data) lat lng ts).labs,
      ∃ place ∈ data, distEngine lat lng place.lat place.lon = FloatR.val lab.distance_km ∧
        lab = mkLab place lab.distance_km) ∧
    (∀ (d : ℚ → ℚ → PyVal → PyVal → FloatR) lat lng (p1 p2 p3 : Place) ts,
      d lat lng p1.lat p1.lon = FloatR.val 5 →
      d lat lng p2.lat p2.lon = FloatR.val 20 →
      d lat lng p3.lat p3.lon = FloatR.val 2 →
      (find_labs_osm d (Except.ok [p1, p2, p3]) lat lng ts).labs
        = [mkLab p3 2, mkLab p1 5]) ∧
    (find_labs_osm dW (Except.ok [pW1, pW2, pW3]) 0 0 []).labs
      = [mkLab pW3 2, mkLab pW1 5] := by
  refine ⟨?_, ?_, ?_, ?_, rank_example, ?_⟩
  · intro fetch lat lng ts
    cases fetch with
    | error e => cases e; rw [find_labs_osm_error_labs]; simp
    | ok data => rw [find_labs_osm_ok_labs]; simp [List.length_take]
  · intro fetch lat lng ts lab hlab
    obtain ⟨data, place, dist, -, -, -, hle, hmk⟩ :=
      mem_find_labs distEngine fetch lat lng ts lab hlab
    rw [hmk]
    exact hle
  · intro fetch lat lng ts
    cases fetch with
    | error e => cases e; rw [find_labs_osm_error_labs]; exact List.sorted_nil
    | ok data =>
      rw [find_labs_osm_ok_labs]
      exact List.Pairwise.sublist (List.take_sublist 5 _) (sortLabs_sorted _)
  · intro data lat lng ts lab hlab
    obtain ⟨data2, place, dist, hdata, hpmem, hd, -, hmk⟩ :=
      mem_find_labs distEngine (Except.ok data) lat lng ts lab hlab
    have hdd : data2 = data := by injection hdata.symm
    subst hdd
    refine ⟨place, hpmem, ?_, ?_⟩
    · rw [hmk]
      simpa [mkLab] using hd
    · rw [hmk]
      simp [mkLab]
  · refine rank_example dW 0 0 pW1 pW2 pW3 [] ?_ ?_ ?_
    · norm_num [dW, pW1]
    · norm_num [dW, pW2]
    · norm_num [dW, pW3]

/-- Claim C10: a candidate whose raw latitude or longitude makes
`float(...)` raise gets the 0.0 distance fallback, passes the 15 km filter
with distance_km = 0.0, sorts ahead of every genuinely located (positive
distance) candidate, appears first in the ranked list, and becomes the
destination of the generated navigation link.  The concrete conjunct runs
the real engine on a genuine candidate 111.19 km from the origin and a
candidate with a missing latitude listed after it. -/
theorem C10_missing_coordinate_ranks_first :
    (∀ (lat lng : ℚ) (pm : Place) (places : List Place) ts,
      pm ∈ places →
      (pyFloat pm.lat = Except.error () ∨ pyFloat pm.lon = Except.error ()) →
      (∀ p ∈ places, p ≠ pm →
        ∃ x : ℝ, 0 < x ∧ distEngine lat lng p.lat p.lon = FloatR.val x) →
      (mkLab pm 0).distance_km = 0 ∧
      (find_labs_osm distEngine (Except.ok places) lat lng ts).labs.head?
        = some (mkLab pm 0) ∧
      (find_labs_osm distEngine (Except.ok places) lat lng ts).map_directions_link
        = some (DirLink.mk lat lng pm.lat pm.lon)) ∧
    ((find_labs_osm distEngine (Except.ok [pgW, pmW]) 0 0 []).labs.head?
        = some (mkLab pmW 0) ∧
      (find_labs_osm distEngine (Except.ok [pgW, pmW]) 0 0 []).map_directions_link
        = some (DirLink.mk 0 0 PyVal.noneV (PyVal.num 77))) := by
  have main : ∀ (lat lng : ℚ) (pm : Place) (places : List Place) ts,
      pm ∈ places →
      (pyFloat pm.lat = Except.error () ∨ pyFloat pm.lon = Except.error ()) →
      (∀ p ∈ places, p ≠ pm →
        ∃ x : ℝ, 0 < x ∧ distEngine lat lng p.lat p.lon = FloatR.val x) →
      (mkLab pm 0).distance_km = 0 ∧
      (find_labs_osm distEngine (Except.ok places) lat lng ts).labs.head?
        = some (mkLab pm 0) ∧
      (find_labs_osm distEngine (Except.ok places) lat lng ts).map_directions_link
        = some (DirLink.mk lat lng pm.lat pm.lon) := by
    intro lat lng pm places ts hmem herr hpos
    have hdm : distEngine lat lng pm.lat pm.lon = FloatR.val 0 :=
      calculate_distance_raise_right lat lng pm.lat pm.lon herr
    have hfm : candLab distEngine lat lng pm = some (mkLab pm 0) := by
      norm_num [candLab, hdm]
    have hmemL : mkLab pm 0 ∈ places.filterMap (candLab distEngine lat lng) :=
      List.mem_filterMap.mpr ⟨pm, hmem, hfm⟩
    have hall : ∀ lab ∈ places.filterMap (candLab distEngine lat lng),
        lab = mkLab pm 0 ∨ 0 < lab.distance_km := by
      intro lab hlab
      obtain ⟨p, hp, hf⟩ := List.mem_filterMap.mp hlab
      by_cases hppm : p = pm
      · subst hppm
        rw [hfm] at hf
        exact Or.inl (Option.some.inj hf).symm
      · obtain ⟨x, hx, hdx⟩ := hpos p hp hppm
        simp only [candLab, hdx] at hf
        by_cases hxle : x ≤ 15
        · rw [if_pos hxle] at hf
          right
          rw [← Option.some.inj hf]
          simpa [mkLab] using hx
        · rw [if_neg hxle] at hf
          exact absurd hf (by simp)
    have hperm := sortLabs_perm (places.filterMap (candLab distEngine lat lng))
    have hsort := sortLabs_sorted (places.filterMap (candLab distEngine lat lng))
    have hmemS : mkLab pm 0 ∈ sortLabs (places.filterMap (candLab distEngine lat lng)) :=
      hperm.mem_iff.mpr hmemL
    cases hS : sortLabs (places.filterMap (candLab distEngine lat lng)) with
    | nil =>
      rw [hS] at hmemS
      simp at hmemS
    | cons hd tl =>
      rw [hS] at hmemS hsort hperm
      have hh : hd = mkLab pm 0 := by
        rcases List.mem_cons.mp hmemS with he | ht
        · exact he.symm
        · have hle : labLE hd (mkLab pm 0) := (List.rel_of_sorted_cons hsort) _ ht
          have hhL : hd ∈ places.filterMap (candLab distEngine lat lng) :=
            hperm.subset (List.mem_cons_self hd tl)
          rcases hall hd hhL with he | hpos2
          · exact he
          · simp only [labLE, mkLab] at hle
            linarith
      refine ⟨by simp [mkLab], ?_, ?_⟩
      · rw [find_labs_osm_ok_labs, hS, hh]
        simp
      · rw [find_labs_osm_ok_dirs, hS, hh]
        simp [mkLab]
  refine ⟨main, ?_⟩
  have hconc := main 0 0 pmW [pgW, pmW] [] (by simp) (Or.inl rfl) ?_
  · exact ⟨hconc.2.1, hconc.2.2⟩
  · intro p hp hne
    rcases List.mem_cons.mp hp with he | he
    · subst he
      refine ⟨111.19, by norm_num, ?_⟩
      exact calculate_distance_0001
    · simp only [List.mem_singleton] at he
      exact absurd he hne

/-- Helper: every response assembled on the object path carries the
literal status "success" (`main.py`, line 143). -/
theorem processOk_status_eq (env : Env) (priority : String) (fl : Bool)
    (sd : Prescription) : (processOk env priority fl sd).1.status = "success" := rfl

/-- Helper: the calendar field of the assembled response is exactly the
captured status of the calendar step on `next_visit`. -/
theorem processOk_calendar_eq (env : Env) (priority : String) (fl : Bool)
    (sd : Prescription) :
    (processOk env priority fl sd).1.calendar_event
      = (match sd.next_visit with
         | some d => some (env.calendar d "Doctor Follow-up")
         | Option.none => Option.none) := rfl

/-- Helper: when the AI step yields an object, the request returns the
assembled response. -/
theorem process_prescription_obj (env : Env) (priority : String) (fl : Bool)
    (sd : Prescription)
    (h : parse_with_ai env.gen_content env.jparse = PyJson.obj sd) :
    process_prescription env priority fl
      = Except.ok (processOk env priority fl sd) := by
  simp [process_prescription, h]

/-- Helper: when `json.loads` succeeded on valid non-object JSON, the
request fails (the `AttributeError` of line 97 escapes the endpoint). -/
theorem process_prescription_nonObj (env : Env) (priority : String) (fl : Bool)
    (h : parse_with_ai env.gen_content env.jparse = PyJson.nonObj) :
    process_prescription env priority fl = Except.error () := by
  simp [process_prescription, h]

/-- Claim C2, counterexample: when the AI returns valid JSON that is not an
object (e.g. "null"), `json.loads` succeeds, `parse_with_ai` returns that
raw value, and `structured_data.get("next_visit")` (`main.py`, line 97)
raises `AttributeError` inside a `try` that has only a `finally` (line
151): the request fails with an error instead of completing with status
"success". -/
theorem C2_nonobject_json_fails_request :
    parse_with_ai envNonObj.gen_content envNonObj.jparse = PyJson.nonObj ∧
    process_prescription envNonObj "price" true = Except.error () := by
  exact ⟨rfl, rfl⟩

/-- Claim C2, amended: whenever the AI step yields a JSON OBJECT — which
includes every AI failure and every unparseable response, since both give
the fallback record — the request completes and returns status "success",
whatever the calendar, geocoding or purchasing collaborators do; when
`next_visit` is present, the calendar collaborator's status record
(success or failure, as `add_checkup_event` reports it — modelled from spec
§6 as non-raising) is captured in the response without aborting the
remaining steps.  Only a successfully parsed NON-object AI response makes
the request fail (see the counterexample). -/
theorem C2_success_whenever_object :
    (∀ env priority fl sd,
      parse_with_ai env.gen_content env.jparse = PyJson.obj sd →
      process_prescription env priority fl
        = Except.ok (processOk env priority fl sd) ∧
      (processOk env priority fl sd).1.status = "success") ∧
    (∀ env priority fl sd d,
      parse_with_ai env.gen_content env.jparse = PyJson.obj sd →
      sd.next_visit = some d →
      (processOk env priority fl sd).1.calendar_event
        = some (env.calendar d "Doctor Follow-up")) ∧
    (∀ env priority fl, env.gen_content = Except.error () →
      process_prescription env priority fl
        = Except.ok (processOk env priority fl fallbackPrescription)) ∧
    process_prescription envBotFail "price" true
      = Except.ok (processOk envBotFail "price" true presMedsW) ∧
    (processOk envBotFail "price" true presMedsW).1.status = "success" := by
  refine ⟨?_, ?_, ?_, rfl, rfl⟩
  · intro env priority fl sd hobj
    exact ⟨process_prescription_obj env priority fl sd hobj,
      processOk_status_eq env priority fl sd⟩
  · intro env priority fl sd d hobj h
    rw [processOk_calendar_eq env priority fl sd, h]
  · intro env priority fl hgen
    refine process_prescription_obj env priority fl fallbackPrescription ?_
    rw [show parse_with_ai env.gen_content env.jparse
        = parse_with_ai (Except.error ()) env.jparse by rw [hgen]]
    rfl

/-- Claim C1, counterexample: when the purchasing collaborator raises
during order dispatch, the pipeline catches the exception but the returned
report is left as initialised — the empty list — so no report entry with
status "Agent Crashed" (or any other entry) appears in the result. -/
theorem C1_crash_leaves_report_empty :
    (processOk envBotFail "price" true presMedsW).1.agent_report = [] ∧
    ((processOk envBotFail "price" true presMedsW).1.agent_report.any
      (fun e => e.status == "Agent Crashed")) = false ∧
    process_prescription envBotFail "price" true
      = Except.ok (processOk envBotFail "price" true presMedsW) := by
  exact ⟨rfl, rfl, rfl⟩

/-- Claim C1, amended: when the AI step yields an object, the purchasing
collaborator is constructed and its order dispatch raises, the pipeline
catches the exception (the request still returns status "success"), the
returned report is the EMPTY list (no "Agent Crashed" entry is produced),
the collaborator is released (`bot.close()` runs), and the calendar and
facility fields of the result are exactly those of the same request with a
succeeding collaborator. -/
theorem C1_bot_crash_is_caught_report_empty :
    (∀ env priority fl (rep2 : List Medicine → String → List ReportEntry) sd,
      parse_with_ai env.gen_content env.jparse = PyJson.obj sd →
      env.agent_init = Except.ok () →
      env.agent_order sd.medicines priority = Except.error () →
      sd.medicines ≠ [] →
      process_prescription env priority fl
        = Except.ok (processOk env priority fl sd) ∧
      (processOk env priority fl sd).1.agent_report = [] ∧
      (processOk env priority fl sd).2.bot_created = true ∧
      (processOk env priority fl sd).2.bot_closed = true ∧
      (processOk env priority fl sd).1.status = "success" ∧
      (processOk env priority fl sd).1.calendar_event
        = (processOk (withOrder env (fun m p => Except.ok (rep2 m p)))
            priority fl sd).1.calendar_event ∧
      (processOk env priority fl sd).1.map_opened
        = (processOk (withOrder env (fun m p => Except.ok (rep2 m p)))
            priority fl sd).1.map_opened) ∧
    (processOk envBotFail "price" true presMedsW).2.bot_created = true ∧
    (processOk envBotFail "price" true presMedsW).2.bot_closed = true ∧
    (processOk envBotFail "price" true presMedsW).1.calendar_event
      = some (envBotFail.calendar "2024-01-04" "Doctor Follow-up") ∧
    process_prescription envBotFail "price" true
      = Except.ok (processOk envBotFail "price" true presMedsW) := by
  refine ⟨?_, rfl, rfl, rfl, rfl⟩
  intro env priority fl rep2 sd hobj hinit hord hmeds
  refine ⟨process_prescription_obj env priority fl sd hobj, ?_, ?_, ?_,
    processOk_status_eq env priority fl sd, rfl, rfl⟩
  · simp only [processOk]
    rw [if_pos hmeds, hinit, hord]
  · simp only [processOk]
    rw [if_pos hmeds, hinit, hord]
  · simp only [processOk]
    rw [if_pos hmeds, hinit, hord]

/-- Claim C8: when the AI step yields an object with detected tests,
findLabs is set and the resolved origin is the sentinel (0, 0), the
pipeline skips facility search entirely (`find_labs_osm` is never invoked,
`main.py` line 114 checks `lat != 0.0`) and the result reports no facility
link. -/
theorem C8_sentinel_origin_skips_search :
    (∀ env priority sd,
      parse_with_ai env.gen_content env.jparse = PyJson.obj sd →
      sd.tests ≠ [] →
      get_auto_location env.auto_loc = (0, 0) →
      process_prescription env priority true
        = Except.ok (processOk env priority true sd) ∧
      (processOk env priority true sd).2.find_labs_called = false ∧
      (processOk env priority true sd).1.map_opened = Option.none) ∧
    ((processOk envLoc0 "price" true presTestsW).2.find_labs_called = false ∧
      (processOk envLoc0 "price" true presTestsW).1.map_opened = Option.none ∧
      process_prescription envLoc0 "price" true
        = Except.ok (processOk envLoc0 "price" true presTestsW)) := by
  have main : ∀ env priority sd,
      parse_with_ai env.gen_content env.jparse = PyJson.obj sd →
      sd.tests ≠ [] →
      get_auto_location env.auto_loc = (0, 0) →
      process_prescription env priority true
        = Except.ok (processOk env priority true sd) ∧
      (processOk env priority true sd).2.find_labs_called = false ∧
      (processOk env priority true sd).1.map_opened = Option.none := by
    intro env priority sd hobj h1 h2
    refine ⟨process_prescription_obj env priority true sd hobj, ?_, ?_⟩
    · simp only [processOk]
      rw [if_pos ⟨h1, trivial⟩, h2]
      simp
    · simp only [processOk]
      rw [if_pos ⟨h1, trivial⟩, h2]
      simp
  refine ⟨main, ?_⟩
  have h := main envLoc0 "price" presTestsW rfl (by decide) rfl
  exact ⟨h.2.1, h.2.2, h.1⟩
